import Mathlib

/-!
Verification development for the nitrogen-pollution spatial pipeline
(`src/src/analysis.py`, `src/app.py`).

Numbers are modelled as rationals (`ℚ`).  A pandas/geopandas data frame is
modelled as a record of its geometry column plus one optional column per
attribute the pipeline touches: `none` means the column is absent from the
frame, `some cells` means it is present, and each cell is itself an
`Option ℚ` (`none` = the Python `None`/NaN cell).  The external geometry
library (shapely/pyproj, out of scope of the repository) is modelled as a
structure of operation fields, so every theorem quantifies over the
library's behaviour; where the repository's algorithm relies on a
documented guarantee of the library (bounding boxes of intersecting
geometries overlap), that guarantee is a field of the structure.
-/

/-- Nitrogen rate policy, `src/src/analysis.py` lines 6-15:
distance ≥ 3000 → 80, else ≥ 2000 → 50, else ≥ 1000 → 40, else 0. -/
def calculate_nitrogen_from_distance (dist_to_water_m : ℚ) : ℚ :=
  if dist_to_water_m ≥ 3000 then 80
  else if dist_to_water_m ≥ 2000 then 50
  else if dist_to_water_m ≥ 1000 then 40
  else 0

/-- The geometry/projection library used by `analysis.py` (geopandas /
shapely / pyproj), abstracted over the geometry type `G`.
`to_crs src dst g` reprojects `g` from CRS `src` to CRS `dst`;
`area` and `distance` are planar area/distance; `unary_union` is
`shapely.ops.unary_union` on a list of geometries. -/
structure GeoLib (G : Type) where
  to_crs : String → String → G → G
  area : G → ℚ
  distance : G → G → ℚ
  unary_union : List G → G

/-- A nullable numeric data-frame column: absent (`none`) or a list of
nullable cells. -/
abbrev DFCol := Option (List (Option ℚ))

/-- The field GeoDataFrame as the pipeline sees it: geometry column, its
CRS, and the numeric columns read or written by `analysis.py`. -/
structure FieldsDF (G : Type) where
  geoms : List G
  crs : String
  area_ha : DFCol
  dist_to_water_m : DFCol
  fertilizer_amount_N_kg_per_ha : DFCol
  n_applied_kg_ha : DFCol
  n_total_kg : DFCol
  n_estimated_to_water_kg : DFCol

/-- The water GeoDataFrame: only geometry and CRS are ever used. -/
structure WaterDF (G : Type) where
  geoms : List G
  crs : String

/-- Element-wise multiplication of nullable cells (pandas `*`:
null propagates). -/
def cellMul : Option ℚ → Option ℚ → Option ℚ
  | some a, some b => some (a * b)
  | _, _ => none

/-- Model of `df.to_crs(dst)`: reproject every geometry from the frame's CRS to
`dst` and retag the frame. Attribute columns are untouched. -/
def toCrsDF {G : Type} (lib : GeoLib G) (dst : String) (df : FieldsDF G) :
    FieldsDF G :=
  { df with geoms := df.geoms.map (lib.to_crs df.crs dst), crs := dst }

/-- Model of `compute_distance_to_water`, `src/src/analysis.py` lines 17-33.
If either frame has no rows, set every `dist_to_water_m` cell to null and
return; otherwise reproject both layers to the metric CRS, union the water
geometries, compute each field's distance to the union, derive the
fertilizer amount from the distance, and reproject back to the fields'
original CRS. -/
def compute_distance_to_water {G : Type} (lib : GeoLib G) (fields : FieldsDF G)
    (water : WaterDF G) (crs : String) : FieldsDF G :=
  if fields.geoms.isEmpty || water.geoms.isEmpty then
    { fields with dist_to_water_m := some (List.replicate fields.geoms.length none) }
  else
    let fields_m := toCrsDF lib crs fields
    let water_m_geoms := water.geoms.map (lib.to_crs water.crs crs)
    let water_union := lib.unary_union water_m_geoms
    let dists := fields_m.geoms.map (fun g => some (lib.distance g water_union))
    let fields_m := { fields_m with dist_to_water_m := some dists }
    let fert := dists.map (fun c => c.map calculate_nitrogen_from_distance)
    let fields_m := { fields_m with fertilizer_amount_N_kg_per_ha := some fert }
    toCrsDF lib fields.crs fields_m

/-- Model of `compute_n_loads`, `src/src/analysis.py` lines 35-56 (the returned
frame; the copy made at line 43 and the diagnostic print at line 42 are
modelled by `compute_n_loads_call` below).  If `area_ha` is absent it is
computed from the metric-projected geometry area divided by 10000; if the
nitrogen record frame is empty the three load columns are set to all-null;
otherwise the mean rate is broadcast, totals are rate × area, and the
estimated-to-water column is total × runoff coefficient. -/
def compute_n_loads {G : Type} (lib : GeoLib G) (fields : FieldsDF G)
    (n_df : List ℚ) (runoff_coef : ℚ) : FieldsDF G :=
  let f := fields
  let computed_area :=
    f.geoms.map (fun g => some (lib.area (lib.to_crs f.crs "EPSG:3857" g) / 10000))
  let f := if f.area_ha.isNone then { f with area_ha := some computed_area } else f
  if n_df.isEmpty then
    { f with
      n_applied_kg_ha := some (List.replicate f.geoms.length none),
      n_total_kg := some (List.replicate f.geoms.length none),
      n_estimated_to_water_kg := some (List.replicate f.geoms.length none) }
  else
    let mean_n := n_df.sum / (n_df.length : ℚ)
    let applied := List.replicate f.geoms.length (some mean_n)
    let f := { f with n_applied_kg_ha := some applied }
    let total := List.zipWith cellMul applied (f.area_ha.getD [])
    let f := { f with n_total_kg := some total }
    let estimated := total.map (fun c => cellMul c (some runoff_coef))
    { f with n_estimated_to_water_kg := some estimated }

/-- The default runoff coefficient of `compute_n_loads` (`runoff_coef: float = 0.1`). -/
def default_runoff_coef : ℚ := 1 / 10

/-- Observable behaviour of one call to `compute_n_loads`: the value the
caller's `fields` binding refers to after the call, the returned frame, and
the lines written to standard output. -/
structure NLoadsCall (G : Type) where
  inputAfter : FieldsDF G
  result : FieldsDF G
  stdout : List String

/-- One call to `compute_n_loads` with its effects.  Line 42 prints a
diagnostic; line 43 (`f = fields.copy()`) copies the input, and every
subsequent write (lines 45, 47-49, 52-55) targets the copy `f`, so the
caller-visible input is unchanged. -/
def compute_n_loads_call {G : Type} (lib : GeoLib G) (fields : FieldsDF G)
    (n_df : List ℚ) (runoff_coef : ℚ) : NLoadsCall G :=
  { inputAfter := fields,
    result := compute_n_loads lib fields n_df runoff_coef,
    stdout := ["Computing nitrogen loads..."] }

/-- The area column actually used by `compute_n_loads` for a given input
frame: the pre-existing `area_ha` column when present (line 44), otherwise
the metric-projected geometry area divided by 10000 (line 45). -/
def areaColUsed {G : Type} (lib : GeoLib G) (fields : FieldsDF G) :
    List (Option ℚ) :=
  match fields.area_ha with
  | some col => col
  | none =>
    fields.geoms.map (fun g =>
      some (lib.area (lib.to_crs fields.crs "EPSG:3857" g) / 10000))

/-- A trivial geometry backend over the one-point geometry type, used to
instantiate the library-polymorphic theorems on concrete inputs. -/
def unitGeoLib : GeoLib Unit :=
  { to_crs := fun _ _ g => g
    area := fun _ => 0
    distance := fun _ _ => 0
    unary_union := fun _ => () }

/-- A concrete two-row field frame with a pre-existing area column. -/
def sampleFields : FieldsDF Unit :=
  { geoms := [(), ()]
    crs := "EPSG:4326"
    area_ha := some [some 10, some 2]
    dist_to_water_m := none
    fertilizer_amount_N_kg_per_ha := none
    n_applied_kg_ha := none
    n_total_kg := none
    n_estimated_to_water_kg := none }

/-- A concrete empty water frame. -/
def emptyWater : WaterDF Unit := { geoms := [], crs := "EPSG:4326" }

/-! ### Theorems about the rate policy -/

/-- C1: `calculate_nitrogen_from_distance` returns exactly 80 for
d ≥ 3000, 50 for 2000 ≤ d < 3000, 40 for 1000 ≤ d < 2000, and 0 for
d < 1000, over all rational distances (negative included); in particular
it returns 80 at 3000, 50 at 2999.999 and 2000, 40 at 1999.999 and 1000,
and 0 at 999.999. -/
theorem rate_policy_bands :
    (∀ d : ℚ,
      (3000 ≤ d → calculate_nitrogen_from_distance d = 80) ∧
      (2000 ≤ d ∧ d < 3000 → calculate_nitrogen_from_distance d = 50) ∧
      (1000 ≤ d ∧ d < 2000 → calculate_nitrogen_from_distance d = 40) ∧
      (d < 1000 → calculate_nitrogen_from_distance d = 0)) ∧
    calculate_nitrogen_from_distance 3000 = 80 ∧
    calculate_nitrogen_from_distance (2999999 / 1000) = 50 ∧
    calculate_nitrogen_from_distance 2000 = 50 ∧
    calculate_nitrogen_from_distance (1999999 / 1000) = 40 ∧
    calculate_nitrogen_from_distance 1000 = 40 ∧
    calculate_nitrogen_from_distance (999999 / 1000) = 0 := by
  refine ⟨fun d => ⟨?_, ?_, ?_, ?_⟩, ?_, ?_, ?_, ?_, ?_, ?_⟩
  · intro h
    simp only [calculate_nitrogen_from_distance]
    split_ifs <;> first | rfl | (exfalso; linarith)
  · rintro ⟨ha, hb⟩
    simp only [calculate_nitrogen_from_distance]
    split_ifs <;> first | rfl | (exfalso; linarith)
  · rintro ⟨ha, hb⟩
    simp only [calculate_nitrogen_from_distance]
    split_ifs <;> first | rfl | (exfalso; linarith)
  · intro h
    simp only [calculate_nitrogen_from_distance]
    split_ifs <;> first | rfl | (exfalso; linarith)
  all_goals
    simp only [calculate_nitrogen_from_distance]
    norm_num

/-- Witness for C1: the band theorem instantiated at d = 2500. -/
theorem rate_policy_bands_witness :
    (2000 : ℚ) ≤ 2500 ∧ (2500 : ℚ) < 3000 ∧
    calculate_nitrogen_from_distance 2500 = 50 :=
  ⟨by norm_num, by norm_num,
    (rate_policy_bands.1 2500).2.1 ⟨by norm_num, by norm_num⟩⟩

/-- C8: the rate policy is monotonically non-decreasing in distance. -/
theorem rate_policy_monotone (d1 d2 : ℚ) (h : d1 ≤ d2) :
    calculate_nitrogen_from_distance d1 ≤ calculate_nitrogen_from_distance d2 := by
  simp only [calculate_nitrogen_from_distance]
  split_ifs <;> norm_num <;> linarith

/-- Witness for C8: monotonicity applied at d1 = 500 ≤ d2 = 2500. -/
theorem rate_policy_monotone_witness :
    (500 : ℚ) ≤ 2500 ∧
    calculate_nitrogen_from_distance 500 ≤ calculate_nitrogen_from_distance 2500 :=
  ⟨by norm_num, rate_policy_monotone 500 2500 (by norm_num)⟩

/-! ### Theorems about the load estimator -/

/-- C4: with an empty nitrogen-record collection, `compute_n_loads` leaves
the applied rate, the total, and the estimated-to-water columns all-null
for every field (never zero or a default). -/
theorem n_loads_empty_records {G : Type} (lib : GeoLib G) (fields : FieldsDF G)
    (runoff_coef : ℚ) (n_df : List ℚ) (h : n_df = []) :
    (compute_n_loads lib fields n_df runoff_coef).n_applied_kg_ha
        = some (List.replicate fields.geoms.length none) ∧
    (compute_n_loads lib fields n_df runoff_coef).n_total_kg
        = some (List.replicate fields.geoms.length none) ∧
    (compute_n_loads lib fields n_df runoff_coef).n_estimated_to_water_kg
        = some (List.replicate fields.geoms.length none) := by
  subst h
  by_cases hA : fields.area_ha.isNone <;>
    simp [compute_n_loads, hA]

/-- Witness for C4 at a concrete frame and the empty record list. -/
theorem n_loads_empty_records_witness :
    (compute_n_loads unitGeoLib sampleFields [] default_runoff_coef).n_applied_kg_ha
        = some (List.replicate sampleFields.geoms.length none) ∧
    (compute_n_loads unitGeoLib sampleFields [] default_runoff_coef).n_total_kg
        = some (List.replicate sampleFields.geoms.length none) ∧
    (compute_n_loads unitGeoLib sampleFields [] default_runoff_coef).n_estimated_to_water_kg
        = some (List.replicate sampleFields.geoms.length none) :=
  n_loads_empty_records unitGeoLib sampleFields default_runoff_coef [] rfl
/-- Indexing a replicated list below its length. -/
theorem get?_replicate_of_lt {α : Type} (a : α) (n i : ℕ) (h : i < n) :
    (List.replicate n a).get? i = some a := by
  induction n generalizing i with
  | zero => omega
  | succ m ih =>
    cases i with
    | zero => rfl
    | succ j => exact ih j (by omega)

/-- Indexing a mapped list. -/
theorem get?_map_eq {α β : Type} (f : α → β) (l : List α) (i : ℕ) :
    (l.map f).get? i = (l.get? i).map f := by
  induction l generalizing i with
  | nil => cases i <;> rfl
  | cons a t ih =>
    cases i with
    | zero => rfl
    | succ j => exact ih j

/-- The four columns written by `compute_n_loads` on a non-empty record
collection, in terms of `areaColUsed`. -/
theorem n_loads_nonempty_cols {G : Type} (lib : GeoLib G) (fields : FieldsDF G)
    (n_df : List ℚ) (runoff_coef : ℚ) (hE : n_df.isEmpty = false) :
    (compute_n_loads lib fields n_df runoff_coef).area_ha
        = some (areaColUsed lib fields) ∧
    (compute_n_loads lib fields n_df runoff_coef).n_applied_kg_ha
        = some (List.replicate fields.geoms.length
            (some (n_df.sum / (n_df.length : ℚ)))) ∧
    (compute_n_loads lib fields n_df runoff_coef).n_total_kg
        = some (List.zipWith cellMul
            (List.replicate fields.geoms.length
              (some (n_df.sum / (n_df.length : ℚ))))
            (areaColUsed lib fields)) ∧
    (compute_n_loads lib fields n_df runoff_coef).n_estimated_to_water_kg
        = some ((List.zipWith cellMul
            (List.replicate fields.geoms.length
              (some (n_df.sum / (n_df.length : ℚ))))
            (areaColUsed lib fields)).map
              (fun c => cellMul c (some runoff_coef))) := by
  cases hA : fields.area_ha <;>
    simp [compute_n_loads, areaColUsed, hA, hE]

/-- C3: with a non-empty nitrogen-record collection, `compute_n_loads`
assigns every field the mean of all record rates, a total of mean rate
times the field's area (the pre-existing area column when it exists,
otherwise projected area / 10000), and an estimate of total times the
runoff coefficient. -/
theorem n_loads_mean_rate {G : Type} (lib : GeoLib G) (fields : FieldsDF G)
    (n_df : List ℚ) (runoff_coef : ℚ) (hne : n_df ≠ []) :
    (compute_n_loads lib fields n_df runoff_coef).area_ha
        = some (areaColUsed lib fields) ∧
    (compute_n_loads lib fields n_df runoff_coef).n_applied_kg_ha
        = some (List.replicate fields.geoms.length
            (some (n_df.sum / (n_df.length : ℚ)))) ∧
    (∀ i a, (areaColUsed lib fields).get? i = some (some a) →
      i < fields.geoms.length →
      ((compute_n_loads lib fields n_df runoff_coef).n_total_kg.getD []).get? i
        = some (some (n_df.sum / (n_df.length : ℚ) * a))) ∧
    (∀ i t, ((compute_n_loads lib fields n_df runoff_coef).n_total_kg.getD []).get? i
        = some (some t) →
      ((compute_n_loads lib fields n_df runoff_coef).n_estimated_to_water_kg.getD []).get? i
        = some (some (t * runoff_coef))) := by
  have hE : n_df.isEmpty = false := by
    cases n_df with
    | nil => exact absurd rfl hne
    | cons a l => rfl
  obtain ⟨h1, h2, h3, h4⟩ := n_loads_nonempty_cols lib fields n_df runoff_coef hE
  refine ⟨h1, h2, ?_, ?_⟩
  · intro i a hget hlt
    rw [h3, Option.getD_some, List.get?_zipWith',
      get?_replicate_of_lt _ _ _ hlt, hget]
    simp [cellMul]
  · intro i t hget
    rw [h3, Option.getD_some] at hget
    rw [h4, Option.getD_some, get?_map_eq, hget]
    simp [cellMul]

/-- Witness for C3: two fields with areas 10 and 2 ha and a single record
of 60 kg/ha; the first field's total is 60 × 10. -/
theorem n_loads_mean_rate_witness :
    ([60] : List ℚ) ≠ [] ∧
    ((compute_n_loads unitGeoLib sampleFields [60] default_runoff_coef).n_total_kg.getD
        []).get? 0
      = some (some (([60] : List ℚ).sum / ((([60] : List ℚ).length : ℕ) : ℚ) * 10)) :=
  ⟨by simp,
    (n_loads_mean_rate unitGeoLib sampleFields [60] default_runoff_coef
      (by simp)).2.2.1 0 10 rfl (by decide)⟩

/-- C7: `compute_n_loads` is idempotent — run on its own output (where the
area and load columns are already present) with the same records and
coefficient, it returns the identical frame: the area is not recomputed
from geometry and the runoff coefficient is not applied twice. -/
theorem n_loads_idempotent {G : Type} (lib : GeoLib G) (fields : FieldsDF G)
    (n_df : List ℚ) (runoff_coef : ℚ) :
    compute_n_loads lib (compute_n_loads lib fields n_df runoff_coef) n_df runoff_coef
      = compute_n_loads lib fields n_df runoff_coef := by
  by_cases hA : fields.area_ha.isNone <;> by_cases hE : n_df.isEmpty <;>
    simp [compute_n_loads, hA, hE]

/-! ### Theorems about the distance stage -/

/-- C5: if the field collection or the water collection is empty,
`compute_distance_to_water` nulls every field's distance, leaves the
geometries, CRS and fertilizer-rate column untouched, and its result does
not depend on the geometry backend or the target CRS at all (no
reprojection is performed). -/
theorem distance_empty_frames {G : Type} (lib : GeoLib G) (fields : FieldsDF G)
    (water : WaterDF G) (crs : String)
    (h : fields.geoms = [] ∨ water.geoms = []) :
    (compute_distance_to_water lib fields water crs).geoms = fields.geoms ∧
    (compute_distance_to_water lib fields water crs).crs = fields.crs ∧
    (compute_distance_to_water lib fields water crs).dist_to_water_m
      = some (List.replicate fields.geoms.length none) ∧
    (compute_distance_to_water lib fields water crs).fertilizer_amount_N_kg_per_ha
      = fields.fertilizer_amount_N_kg_per_ha ∧
    ∀ (lib' : GeoLib G) (crs' : String),
      compute_distance_to_water lib' fields water crs'
        = compute_distance_to_water lib fields water crs := by
  have hc : (fields.geoms.isEmpty || water.geoms.isEmpty) = true := by
    rcases h with h | h <;> simp [h]
  refine ⟨?_, ?_, ?_, ?_, ?_⟩ <;>
    simp [compute_distance_to_water, hc]

/-- Witness for C5: a two-row field frame against an empty water frame. -/
theorem distance_empty_frames_witness :
    (sampleFields.geoms = [] ∨ emptyWater.geoms = []) ∧
    (compute_distance_to_water unitGeoLib sampleFields emptyWater "EPSG:3857").dist_to_water_m
      = some (List.replicate sampleFields.geoms.length none) ∧
    (compute_distance_to_water unitGeoLib sampleFields emptyWater "EPSG:3857").fertilizer_amount_N_kg_per_ha
      = sampleFields.fertilizer_amount_N_kg_per_ha :=
  ⟨Or.inr rfl,
    (distance_empty_frames unitGeoLib sampleFields emptyWater "EPSG:3857"
      (Or.inr rfl)).2.2.1,
    (distance_empty_frames unitGeoLib sampleFields emptyWater "EPSG:3857"
      (Or.inr rfl)).2.2.2.1⟩

/-! ### Theorems about the effects of the load estimator -/

/-- Counterexample to C10 as stated: `compute_n_loads` is not free of side
effects beyond its return value — at a concrete input it writes a
diagnostic line to standard output (`print` at `analysis.py` line 42). -/
theorem n_loads_call_prints :
    (compute_n_loads_call unitGeoLib sampleFields [60] default_runoff_coef).stdout
      ≠ [] := by
  simp [compute_n_loads_call]

/-- C10 (amended): a call to `compute_n_loads` is deterministic, leaves the
caller's input frame exactly as it was (all writes go to the copy made at
line 43), and its only effect beyond the returned frame is the single fixed
diagnostic line on standard output. -/
theorem n_loads_call_effects {G : Type} (lib : GeoLib G) (fields : FieldsDF G)
    (n_df : List ℚ) (runoff_coef : ℚ) :
    (compute_n_loads_call lib fields n_df runoff_coef).inputAfter = fields ∧
    (compute_n_loads_call lib fields n_df runoff_coef).stdout
      = ["Computing nitrogen loads..."] ∧
    (compute_n_loads_call lib fields n_df runoff_coef).result
      = compute_n_loads lib fields n_df runoff_coef :=
  ⟨rfl, rfl, rfl⟩

/-! ### The query service (`src/app.py`) -/

/-- A GeoJSON-style nested coordinate value, as carried by the request
body's `coordinates` field: a number or an arbitrarily nested array. -/
inductive JVal where
  | num (q : ℚ)
  | arr (xs : List JVal)

/-- The shapely geometry objects that `shapely.geometry.shape` can build
from the GeoJSON geometry types handled here. -/
inductive Geom where
  | point (c : ℚ × ℚ)
  | multiPoint (cs : List (ℚ × ℚ))
  | lineString (cs : List (ℚ × ℚ))
  | multiLineString (ls : List (List (ℚ × ℚ)))
  | polygon (rings : List (List (ℚ × ℚ)))
  | multiPolygon (polys : List (List (List (ℚ × ℚ))))
  deriving DecidableEq

/-- A GeoJSON position: `[x, y]` or `[x, y, z]`. -/
def parsePos : JVal → Option (ℚ × ℚ)
  | .arr [.num x, .num y] => some (x, y)
  | .arr [.num x, .num y, .num _] => some (x, y)
  | _ => none

/-- A GeoJSON position list (a line or a ring). -/
def parsePosList : JVal → Option (List (ℚ × ℚ))
  | .arr xs => xs.mapM parsePos
  | _ => none

/-- A GeoJSON ring list (Polygon coordinates). -/
def parseRingList : JVal → Option (List (List (ℚ × ℚ)))
  | .arr xs => xs.mapM parsePosList
  | _ => none

/-- A GeoJSON polygon list (MultiPolygon coordinates). -/
def parsePolyList : JVal → Option (List (List (List (ℚ × ℚ))))
  | .arr xs => xs.mapM parseRingList
  | _ => none

/-- Model of `shapely.geometry.shape` on a mapping with the given `type` string and
`coordinates`: builds the geometry object, or raises (modelled as
`Except.error`) on an unknown geometry type or a malformed coordinate
structure. -/
def shape (t : String) (coordinates : JVal) : Except String Geom :=
  if t = "Point" then
    match parsePos coordinates with
    | some p => .ok (.point p)
    | none => .error "malformed Point coordinates"
  else if t = "MultiPoint" then
    match parsePosList coordinates with
    | some cs => .ok (.multiPoint cs)
    | none => .error "malformed MultiPoint coordinates"
  else if t = "LineString" then
    match parsePosList coordinates with
    | some cs => .ok (.lineString cs)
    | none => .error "malformed LineString coordinates"
  else if t = "MultiLineString" then
    match parseRingList coordinates with
    | some ls => .ok (.multiLineString ls)
    | none => .error "malformed MultiLineString coordinates"
  else if t = "Polygon" then
    match parseRingList coordinates with
    | some rs => .ok (.polygon rs)
    | none => .error "malformed Polygon coordinates"
  else if t = "MultiPolygon" then
    match parsePolyList coordinates with
    | some ps => .ok (.multiPolygon ps)
    | none => .error "malformed MultiPolygon coordinates"
  else .error ("unknown geometry type " ++ t)

/-- The request body of the `/check-area` endpoint (`GeoJSONRequest` in
`app.py`): a `type` string and an unvalidated `coordinates` value. -/
structure GeoJSONRequest where
  type : String
  coordinates : JVal

/-- FastAPI's `HTTPException`: a status code and a detail string. -/
structure HTTPException where
  status_code : ℕ
  detail : String
  deriving DecidableEq

/-- The check `isinstance(geom, (Polygon, MultiPolygon))`. -/
def isPolygonal : Geom → Bool
  | .polygon _ => true
  | .multiPolygon _ => true
  | _ => false

/-- Model of `parse_geojson`, `src/app.py` lines 28-35: build the shapely geometry
from the request; any exception (malformed structure, unknown type, or the
explicit type check) is converted to an HTTP 400 error. -/
def parse_geojson (geojson : GeoJSONRequest) : Except HTTPException Geom :=
  match shape geojson.type geojson.coordinates with
  | .error e => .error ⟨400, "Invalid GeoJSON: " ++ e⟩
  | .ok geom =>
    if isPolygonal geom then .ok geom
    else .error ⟨400, "Invalid GeoJSON: Geometry must be Polygon or MultiPolygon"⟩

/-- An axis-aligned bounding box (`geometry.bounds`). -/
structure Box where
  minx : ℚ
  miny : ℚ
  maxx : ℚ
  maxy : ℚ

/-- Axis-aligned bounding-box overlap (the R-tree intersection test). -/
def boxOverlap (a b : Box) : Bool :=
  decide (a.minx ≤ b.maxx) && decide (b.minx ≤ a.maxx) &&
    decide (a.miny ≤ b.maxy) && decide (b.miny ≤ a.maxy)

/-- The geometric primitives of shapely/geopandas used by `check_area`,
together with the documented guarantee the spatial index relies on: two
intersecting geometries have overlapping bounding boxes (so the index
phase can never drop a true match). -/
structure ShapelyLib where
  bounds : Geom → Box
  intersects : Geom → Geom → Bool
  bounds_sound : ∀ a b, intersects a b = true →
    boxOverlap (bounds a) (bounds b) = true

/-- One row of the loaded `fields_n_loads.geojson` GeoDataFrame, with the
attributes `check_area` reads (`row.get` returns `None` for a missing
column, hence the `Option`s). -/
structure FieldRow where
  id : Option String
  fertilizer : Option String
  restriction : Option String
  geometry : Geom

/-- The `__geo_interface__` view: a geometry re-expressed as GeoJSON. -/
structure GeoJSONGeom where
  type : String
  coordinates : JVal

/-- Encode a position back to GeoJSON. -/
def posJ (p : ℚ × ℚ) : JVal := .arr [.num p.1, .num p.2]

/-- Encode a position list back to GeoJSON. -/
def posListJ (cs : List (ℚ × ℚ)) : JVal := .arr (cs.map posJ)

/-- Encode a ring list back to GeoJSON. -/
def ringListJ (rs : List (List (ℚ × ℚ))) : JVal := .arr (rs.map posListJ)

/-- Encode a polygon list back to GeoJSON. -/
def polyListJ (ps : List (List (List (ℚ × ℚ)))) : JVal := .arr (ps.map ringListJ)

/-- Model of `geometry.__geo_interface__` for the geometries modelled here. -/
def geo_interface : Geom → GeoJSONGeom
  | .point p => ⟨"Point", posJ p⟩
  | .multiPoint cs => ⟨"MultiPoint", posListJ cs⟩
  | .lineString cs => ⟨"LineString", posListJ cs⟩
  | .multiLineString ls => ⟨"MultiLineString", ringListJ ls⟩
  | .polygon rs => ⟨"Polygon", ringListJ rs⟩
  | .multiPolygon ps => ⟨"MultiPolygon", polyListJ ps⟩

/-- One entry of the `matches` list returned by `check_area`. -/
structure MatchRecord where
  id : Option String
  fertilizer : Option String
  restriction : Option String
  geometry : GeoJSONGeom

/-- The dictionary appended for a matching row (`app.py` lines 51-56). -/
def matchRecordOf (row : FieldRow) : MatchRecord :=
  ⟨row.id, row.fertilizer, row.restriction, geo_interface row.geometry⟩

/-- Model of `list(sindex.intersection(bounds))`: the indices of all stored rows
whose bounding box overlaps the query box, in index order. -/
def sindex_intersection (lib : ShapelyLib) (gdf : List FieldRow) (b : Box) :
    List ℕ :=
  (List.range gdf.length).filter (fun i =>
    ((gdf.get? i).map (fun row => boxOverlap (lib.bounds row.geometry) b)).getD false)

/-- The JSON body returned by `check_area`: either the no-match message or
the list of matches. -/
inductive CheckAreaResponse where
  | noMatch (message : String)
  | matches (ms : List MatchRecord)

/-- The body of `check_area` after a successful parse (`src/app.py` lines
44-60): prune candidates through the spatial index by bounding box
(`sindex.intersection(polygon.bounds)` then `gdf.iloc`), keep the
candidates whose geometry exactly intersects the query polygon, and answer
with the match list or the no-match message. -/
def check_area_body (lib : ShapelyLib) (gdf : List FieldRow) (polygon : Geom) :
    Except HTTPException CheckAreaResponse :=
  let possible_matches_index := sindex_intersection lib gdf (lib.bounds polygon)
  let possible_matches := possible_matches_index.filterMap (fun i => gdf.get? i)
  let results :=
    (possible_matches.filter (fun row => lib.intersects polygon row.geometry)).map
      matchRecordOf
  if results.isEmpty then .ok (.noMatch "No matching area found")
  else .ok (.matches results)

/-- Model of `check_area`, `src/app.py` lines 40-60: parse the request — a raised
`HTTPException` (status 400) aborts the endpoint before any spatial work —
then run the two-phase spatial query. -/
def check_area (lib : ShapelyLib) (gdf : List FieldRow)
    (request : GeoJSONRequest) : Except HTTPException CheckAreaResponse :=
  match parse_geojson request with
  | .error e => .error e
  | .ok polygon => check_area_body lib gdf polygon

/-- Recovering the filtered rows of a list from its filtered indices:
filtering the index range by a per-row test and then looking the indices
back up is the same as filtering the rows directly. -/
theorem filter_range_get {α : Type} (p : α → Bool) (l : List α) :
    ((List.range l.length).filter (fun i => ((l.get? i).map p).getD false)).filterMap
        (fun i => l.get? i) = l.filter p := by
  induction l with
  | nil => rfl
  | cons a t ih =>
    have hmap : (((List.range t.length).map Nat.succ).filter
          (fun i => ((((a :: t).get? i).map p).getD false)))
        = ((List.range t.length).filter
            (fun i => ((t.get? i).map p).getD false)).map Nat.succ := by
      rw [List.filter_map]
      rfl
    have hrest : (((List.range t.length).filter
          (fun i => ((t.get? i).map p).getD false)).map Nat.succ).filterMap
            (fun i => (a :: t).get? i)
        = t.filter p := by
      rw [List.filterMap_map]
      exact ih
    rw [List.length_cons, List.range_succ_eq_map, List.filter_cons]
    cases hpa : p a
    · have h0 : ((((a :: t).get? 0).map p).getD false) = false := by
        simp [hpa]
      rw [h0, if_neg (by simp), hmap, hrest, List.filter_cons, hpa, if_neg (by simp)]
    · have h0 : ((((a :: t).get? 0).map p).getD false) = true := by
        simp [hpa]
      rw [h0, if_pos rfl, hmap,
        List.filterMap_cons_some
          (show (fun i => (a :: t).get? i) 0 = some a from rfl),
        hrest, List.filter_cons, hpa, if_pos rfl]

/-- Mapping preserves emptiness. -/
theorem isEmpty_map_eq {α β : Type} (f : α → β) (l : List α) :
    (l.map f).isEmpty = l.isEmpty := by
  cases l <;> rfl

/-- Bounding-box overlap is symmetric. -/
theorem boxOverlap_comm (a b : Box) : boxOverlap a b = boxOverlap b a := by
  rw [Bool.eq_iff_iff]
  simp only [boxOverlap, Bool.and_eq_true, decide_eq_true_eq]
  tauto

/-- The two-phase query body computes exactly the rows whose geometry
intersects the query polygon: the bounding-box phase keeps a superset of
the true matches (by `bounds_sound`) and the exact phase removes the rest. -/
theorem check_area_body_eq (lib : ShapelyLib) (gdf : List FieldRow)
    (polygon : Geom) :
    check_area_body lib gdf polygon =
      if (gdf.filter (fun row => lib.intersects polygon row.geometry)).isEmpty then
        .ok (.noMatch "No matching area found")
      else
        .ok (.matches ((gdf.filter
          (fun row => lib.intersects polygon row.geometry)).map matchRecordOf)) := by
  simp only [check_area_body, sindex_intersection]
  have hpm : ((List.range gdf.length).filter (fun i =>
        ((gdf.get? i).map
          (fun row => boxOverlap (lib.bounds row.geometry) (lib.bounds polygon))).getD
            false)).filterMap (fun i => gdf.get? i)
      = gdf.filter
          (fun row => boxOverlap (lib.bounds row.geometry) (lib.bounds polygon)) :=
    filter_range_get _ gdf
  rw [hpm, List.filter_filter]
  have hff : gdf.filter (fun row =>
        lib.intersects polygon row.geometry &&
          boxOverlap (lib.bounds row.geometry) (lib.bounds polygon))
      = gdf.filter (fun row => lib.intersects polygon row.geometry) := by
    apply List.filter_congr
    intro row _
    cases hx : lib.intersects polygon row.geometry
    · simp
    · have hbb := lib.bounds_sound polygon row.geometry hx
      rw [boxOverlap_comm] at hbb
      simp [hbb]
  rw [hff, isEmpty_map_eq]

/-- The function `shape` only returns a Polygon/MultiPolygon object for the type
strings "Polygon" and "MultiPolygon". -/
theorem shape_ok_type {t : String} {c : JVal} {g : Geom}
    (hs : shape t c = .ok g) (hg : isPolygonal g = true) :
    t = "Polygon" ∨ t = "MultiPolygon" := by
  unfold shape at hs
  split_ifs at hs with h1 h2 h3 h4 h5 h6
  · rcases hpp : parsePos c with _ | p <;> rw [hpp] at hs
    · cases hs
    · cases hs
      simp [isPolygonal] at hg
  · rcases hpp : parsePosList c with _ | cs <;> rw [hpp] at hs
    · cases hs
    · cases hs
      simp [isPolygonal] at hg
  · rcases hpp : parsePosList c with _ | cs <;> rw [hpp] at hs
    · cases hs
    · cases hs
      simp [isPolygonal] at hg
  · rcases hpp : parseRingList c with _ | ls <;> rw [hpp] at hs
    · cases hs
    · cases hs
      simp [isPolygonal] at hg
  · exact Or.inl h5
  · exact Or.inr h6

/-- C6: a query whose geometry type is neither Polygon nor MultiPolygon,
or whose coordinate structure `shape` rejects, fails with an HTTP 400
Invalid-Geometry error already at parsing: `check_area` returns that very
error whatever the stored collection and the geometry backend are, so no
spatial work happens and the service state plays no role. -/
theorem invalid_geometry_rejected (request : GeoJSONRequest)
    (h : (request.type ≠ "Polygon" ∧ request.type ≠ "MultiPolygon") ∨
      ∃ e, shape request.type request.coordinates = .error e) :
    ∃ exc : HTTPException, exc.status_code = 400 ∧
      parse_geojson request = .error exc ∧
      ∀ (lib : ShapelyLib) (gdf : List FieldRow),
        check_area lib gdf request = .error exc := by
  cases hs : shape request.type request.coordinates with
  | error e =>
    refine ⟨⟨400, "Invalid GeoJSON: " ++ e⟩, rfl, ?_, ?_⟩
    · simp [parse_geojson, hs]
    · intro lib gdf
      simp [check_area, parse_geojson, hs]
  | ok g =>
    rcases h with ⟨h1, h2⟩ | ⟨e, he⟩
    · have hng : isPolygonal g = false := by
        cases hgp : isPolygonal g
        · rfl
        · rcases shape_ok_type hs hgp with ht | ht
          · exact absurd ht h1
          · exact absurd ht h2
      refine ⟨⟨400, "Invalid GeoJSON: Geometry must be Polygon or MultiPolygon"⟩,
        rfl, ?_, ?_⟩
      · simp [parse_geojson, hs, hng]
      · intro lib gdf
        simp [check_area, parse_geojson, hs, hng]
    · rw [hs] at he
      cases he

/-- A request of type Point with well-formed coordinates. -/
def pointReq : GeoJSONRequest := ⟨"Point", posJ (0, 0)⟩

/-- Witness for C6: the Point request is rejected with a 400 error before
any spatial work. -/
theorem invalid_geometry_rejected_witness :
    (pointReq.type ≠ "Polygon" ∧ pointReq.type ≠ "MultiPolygon") ∧
    ∃ exc : HTTPException, exc.status_code = 400 ∧
      parse_geojson pointReq = .error exc ∧
      ∀ (lib : ShapelyLib) (gdf : List FieldRow),
        check_area lib gdf pointReq = .error exc :=
  ⟨⟨by decide, by decide⟩,
    invalid_geometry_rejected pointReq (Or.inl ⟨by decide, by decide⟩)⟩

/-- C2: for every parseable query polygon and every stored collection,
`check_area` answers with exactly the stored rows whose geometry
intersects the polygon, as identifier / fertilizer / restriction /
GeoJSON-geometry records (the no-match message when that set is empty,
the full match list otherwise); and in particular, when the query polygon
is a stored field's own geometry (and so intersects itself), that field's
identifier occurs exactly once among the matches, provided the stored
identifiers are pairwise distinct. -/
theorem check_area_exact (lib : ShapelyLib) (gdf : List FieldRow)
    (request : GeoJSONRequest) (polygon : Geom)
    (hp : parse_geojson request = .ok polygon) :
    check_area lib gdf request
      = (if (gdf.filter (fun row => lib.intersects polygon row.geometry)).isEmpty
        then .ok (.noMatch "No matching area found")
        else .ok (.matches ((gdf.filter
          (fun row => lib.intersects polygon row.geometry)).map matchRecordOf))) ∧
    ∀ (k : ℕ) (hk : k < gdf.length),
      (gdf.map FieldRow.id).Nodup →
      polygon = (gdf.get ⟨k, hk⟩).geometry →
      lib.intersects polygon polygon = true →
      check_area lib gdf request
        = .ok (.matches ((gdf.filter
            (fun row => lib.intersects polygon row.geometry)).map matchRecordOf)) ∧
      ((gdf.filter (fun row => lib.intersects polygon row.geometry)).map
          matchRecordOf).countP
        (fun r => decide (r.id = (gdf.get ⟨k, hk⟩).id)) = 1 := by
  have hca : check_area lib gdf request = check_area_body lib gdf polygon := by
    unfold check_area
    rw [hp]
  refine ⟨by rw [hca, check_area_body_eq], ?_⟩
  intro k hk hids hq hself
  have htest : lib.intersects polygon (gdf.get ⟨k, hk⟩).geometry = true := by
    rw [← hq]
    exact hself
  have hmem : gdf.get ⟨k, hk⟩
      ∈ gdf.filter (fun row => lib.intersects polygon row.geometry) :=
    List.mem_filter.mpr ⟨List.get_mem gdf k hk, htest⟩
  have hne : (gdf.filter (fun row => lib.intersects polygon row.geometry)).isEmpty
      = false := by
    cases hfe : (gdf.filter (fun row => lib.intersects polygon row.geometry)).isEmpty
    · rfl
    · rw [List.isEmpty_iff] at hfe
      rw [hfe] at hmem
      cases hmem
  constructor
  · rw [hca, check_area_body_eq, hne]
    simp
  · rw [List.countP_map]
    show (gdf.filter (fun row => lib.intersects polygon row.geometry)).countP
      (fun row => decide (row.id = (gdf.get ⟨k, hk⟩).id)) = 1
    have hsub : (gdf.filter (fun row => lib.intersects polygon row.geometry)).countP
          (fun row => decide (row.id = (gdf.get ⟨k, hk⟩).id))
        ≤ gdf.countP (fun row => decide (row.id = (gdf.get ⟨k, hk⟩).id)) :=
      List.Sublist.countP_le _ (List.filter_sublist gdf)
    have hcnt : gdf.countP (fun row => decide (row.id = (gdf.get ⟨k, hk⟩).id))
        = (gdf.map FieldRow.id).countP (fun x => decide (x = (gdf.get ⟨k, hk⟩).id)) :=
      (List.countP_map (fun x => decide (x = (gdf.get ⟨k, hk⟩).id)) FieldRow.id gdf).symm
    have hle1 : (gdf.map FieldRow.id).countP
        (fun x => decide (x = (gdf.get ⟨k, hk⟩).id)) ≤ 1 :=
      List.nodup_iff_count_le_one.mp hids ((gdf.get ⟨k, hk⟩).id)
    have hpos : 0 < (gdf.filter
          (fun row => lib.intersects polygon row.geometry)).countP
        (fun row => decide (row.id = (gdf.get ⟨k, hk⟩).id)) :=
      List.countP_pos_iff.mpr ⟨gdf.get ⟨k, hk⟩, hmem, by simp⟩
    omega

/-- A lawful but degenerate shapely backend for concrete instantiation:
every bounding box is the origin box (boxes always overlap) and two
geometries intersect exactly when they are equal. -/
def constLib : ShapelyLib :=
  { bounds := fun _ => ⟨0, 0, 0, 0⟩
    intersects := fun a b => a == b
    bounds_sound := fun _ _ _ => rfl }

/-- The unit-square ring. -/
def squareRing : List (List (ℚ × ℚ)) :=
  [[(0, 0), (1, 0), (1, 1), (0, 1), (0, 0)]]

/-- The unit-square polygon geometry. -/
def squarePoly : Geom := .polygon squareRing

/-- A stored field row whose geometry is the unit square. -/
def sampleRow : FieldRow :=
  { id := some "field-1"
    fertilizer := some "NPK"
    restriction := none
    geometry := squarePoly }

/-- A request carrying the unit-square polygon. -/
def squareReq : GeoJSONRequest := ⟨"Polygon", ringListJ squareRing⟩

/-- Witness for C2: querying a one-row collection with that row's own
geometry returns its record, and its identifier occurs exactly once. -/
theorem check_area_exact_witness :
    check_area constLib [sampleRow] squareReq
      = .ok (.matches (([sampleRow].filter
          (fun row => constLib.intersects squarePoly row.geometry)).map
            matchRecordOf)) ∧
    (([sampleRow].filter
        (fun row => constLib.intersects squarePoly row.geometry)).map
          matchRecordOf).countP
      (fun r => decide (r.id = ([sampleRow].get ⟨0, by decide⟩).id)) = 1 :=
  (check_area_exact constLib [sampleRow] squareReq squarePoly rfl).2
    0 (by decide) (by decide) rfl (by decide)

/-- Counterexample to C9 as stated: on a valid query polygon matching no
stored field, `check_area` does answer with a message object, but the
message string is "No matching area found", not "no match". -/
theorem no_match_message_counterexample :
    check_area constLib [] squareReq
      = .ok (.noMatch "No matching area found") ∧
    check_area constLib [] squareReq ≠ .ok (.noMatch "no match") := by
  refine ⟨rfl, ?_⟩
  intro h
  rw [show check_area constLib [] squareReq
      = .ok (.noMatch "No matching area found") from rfl] at h
  simp only [Except.ok.injEq, CheckAreaResponse.noMatch.injEq] at h
  exact absurd h (by decide)

/-- C9 (amended): for a parseable query polygon, a query intersecting no
stored field yields the normal success value with the message
"No matching area found" — an `Except.ok`, distinct from every error — and
otherwise the matches list with one entry per intersecting stored field. -/
theorem no_match_outcome (lib : ShapelyLib) (gdf : List FieldRow)
    (request : GeoJSONRequest) (polygon : Geom)
    (hp : parse_geojson request = .ok polygon) :
    (gdf.filter (fun row => lib.intersects polygon row.geometry) = [] →
      check_area lib gdf request = .ok (.noMatch "No matching area found")) ∧
    (gdf.filter (fun row => lib.intersects polygon row.geometry) ≠ [] →
      check_area lib gdf request
        = .ok (.matches ((gdf.filter
            (fun row => lib.intersects polygon row.geometry)).map
              matchRecordOf))) := by
  have hca : check_area lib gdf request = check_area_body lib gdf polygon := by
    unfold check_area
    rw [hp]
  rw [hca, check_area_body_eq]
  constructor
  · intro h
    rw [h]
    rfl
  · intro h
    have : (gdf.filter (fun row => lib.intersects polygon row.geometry)).isEmpty
        = false := by
      cases hfe : (gdf.filter (fun row => lib.intersects polygon row.geometry)).isEmpty
      · rfl
      · exact absurd (List.isEmpty_iff.mp hfe) h
    rw [this]
    simp

/-- Witness for C9 (amended): the empty stored collection matches nothing
and the endpoint answers the no-match message as a success. -/
theorem no_match_outcome_witness :
    ([] : List FieldRow).filter
        (fun row => constLib.intersects squarePoly row.geometry) = [] ∧
    check_area constLib [] squareReq
      = .ok (.noMatch "No matching area found") :=
  ⟨rfl, (no_match_outcome constLib [] squareReq squarePoly rfl).1 rfl⟩
